import Mathlib

/-!
Verification of the mcp-news ingestion pipeline and retrieval service.

This file gives a shallow embedding of the two source files of the
repository:

* `news_gatherer.py` — feed harvesting (`fetch_and_store`), id derivation,
  window/dedup filtering, content fallback resolution, batched
  conflict-ignoring insertion (`upsert_entries`), and the schema created by
  `init_db`.
* `news_mcp_server.py` — the paginated retrieval path
  (`get_articles_with_pagination`), the `summarize_news` tool including its
  calendar/rolling cutoff computation, and the digest composer
  (`summarize_unsummarized`).

Timestamps are modelled as seconds since the Unix epoch (`Int`; the "now"
clock as `Nat`).  Network calls (`requests.get` + `trafilatura.extract`,
the OpenAI call) are modelled as explicit function parameters, and the two
sources of randomness (`uuid.uuid4`) as a generator indexed by a counter
threaded through the run, exactly where the Python code draws them.
Python truthiness on optional strings (`x or y` chains, `if category:`)
is modelled by `truthy`/`firstTruthy`: `None` and the empty string are
both falsy.

The persistent store is modelled as a list of rows.  Note that `init_db`
creates the `entries` table WITHOUT an `uploaded_at` column, while the
retrieval SQL in `get_articles_with_pagination` filters and orders by
`uploaded_at`; the retrieval model (`RetrievalRow`) therefore follows the
schema of spec §6 (which has `uploaded_at`), and the mismatch with
`init_db`'s actual column list is the subject of claim C1
(`initDbColumns` vs `retrievalQueryColumns`).
-/

namespace McpNews

/-- Timestamps: seconds since the Unix epoch. -/
abbrev Time := Int

/-! ## Python truthiness on optional strings -/

/-- Python truthiness of an optional string: `None` and `""` are falsy.
Used to model `x or y` chains such as lines 271-276 and 291-296 of
`news_gatherer.py`. -/
def truthy : Option String → Bool
  | some s => !(s == "")
  | none => false

/-- First truthy value of a list of optional strings, i.e. the value of a
Python `a or b or c` chain (with `none` when every operand is falsy). -/
def firstTruthy : List (Option String) → Option String
  | [] => none
  | o :: os => if truthy o then o else firstTruthy os

/-! ## Data model of `news_gatherer.py` -/

/-- One feed item as seen through `feedparser`: `entry.get("k")` returns
`none` when the key is absent; attribute access (`entry.link`,
`entry.title`) raises `AttributeError` when the key is absent, which the
embedding surfaces as `Except.error`.  `publishedParsed`/`updatedParsed`
are the already-parsed timestamps (`none` = absent or unparsable). -/
structure RawItem where
  idField : Option String
  guid : Option String
  link : Option String
  title : Option String
  summary : Option String
  description : Option String
  publishedParsed : Option Time
  updatedParsed : Option Time
deriving Repr, DecidableEq, Inhabited

/-- A row of the `entries` table as written by `upsert_entries`
(`news_gatherer.py` lines 212-222): columns
`(id, title, link, published, source, category, content, summarized_at)`. -/
structure Entry where
  id : String
  title : String
  link : String
  published : Option Time
  source : String
  category : String
  content : String
  summarizedAt : Option Time
deriving Repr, DecidableEq, Inhabited

/-- A configured feed source (`FEED_SOURCES` elements): name and category
(the url only matters through the fetch outcome, which is a parameter). -/
structure Source where
  name : String
  category : String
deriving Repr, DecidableEq, Inhabited

/-- Outcome of the per-source feed fetch in `fetch_and_store`
(lines 246-265): either a parsed item list, or a failure (non-200
response or a raised transport exception — both branches behave
identically afterwards: they log a warning and set `entries = []`). -/
inductive FetchResult where
  | ok (items : List RawItem)
  | fail
deriving Repr, DecidableEq, Inhabited

/-- Environment of one ingestion run: the article extractor
(`_extract_content`, lines 187-210, `none` = fetch failure/no text;
`some ""` is possible for whitespace-only text and is falsy), the
deterministic `uuid5` hash, the stream of `uuid4` draws, and the
ingestion cutoff `now - LOOKBACK_HOURS`. -/
structure IngestCtx where
  extract : String → Option String
  uuid5 : String → String
  rand : Nat → String
  cutoff : Time

/-- The ingestion cutoff of `fetch_and_store` line 232:
`datetime.now(utc) - timedelta(hours=LOOKBACK_HOURS)`. -/
def ingestCutoff (now : Nat) (lookbackHours : Nat) : Time :=
  (now : Int) - (lookbackHours : Int) * 3600

/-! ## Id derivation, windowing and content fallback -/

/-- Lines 271-276: `entry.get("id") or entry.get("guid") or
entry.get("link") or str(uuid5(NAMESPACE_URL, entry.get("link",
str(uuid4()))))`.  Returns the id together with the updated `uuid4`
counter: the `uuid4()` argument is evaluated eagerly whenever the fourth
operand is reached, but its value is only used when the `link` key is
absent. -/
def deriveEntryId (uuid5 : String → String) (rand : Nat → String)
    (ctr : Nat) (it : RawItem) : String × Nat :=
  if truthy it.idField then (it.idField.getD "", ctr)
  else if truthy it.guid then (it.guid.getD "", ctr)
  else if truthy it.link then (it.link.getD "", ctr)
  else
    match it.link with
    | some l => (uuid5 l, ctr + 1)
    | none => (uuid5 (rand ctr), ctr + 1)

/-- Line 283: `entry.get("published_parsed") or entry.get("updated_parsed")`
(a parsed time struct is always truthy). -/
def pubOf (it : RawItem) : Option Time :=
  match it.publishedParsed with
  | some p => some p
  | none => it.updatedParsed

/-- Line 287: `if pub_dt and pub_dt < cutoff_dt` — an item is stale when
it has a parsed date strictly earlier than the cutoff; undated items are
never stale. -/
def staleAt (cutoff : Time) (pub : Option Time) : Bool :=
  match pub with
  | some p => decide (p < cutoff)
  | none => false

/-- Lines 291-296: `_extract_content(entry.link) or entry.get("summary")
or entry.get("description") or ""`. -/
def resolvedContent (ctx : IngestCtx) (l : String) (it : RawItem) : String :=
  (firstTruthy [ctx.extract l, it.summary, it.description]).getD ""

/-! ## Per-item and per-source processing -/

/-- Mutable state of the per-source inner loop of `fetch_and_store`:
the shared `recent_ids` set, the source's `new_rows` batch, the
`source_new` counter, and the `uuid4` draw counter. -/
structure SourceState where
  recentIds : List String
  newRows : List Entry
  sourceNew : Nat
  ctr : Nat
deriving Repr, DecidableEq, Inhabited

/-- Lines 270-311 of `news_gatherer.py`, for one feed item: derive the id,
skip duplicates against `recent_ids`, parse the publish date, skip stale
items, resolve content with the fallback chain (dropping the item when the
result is empty), and append the new row.  Accessing `entry.link`
(line 292) or `entry.title` (line 302) when the key is absent raises
`AttributeError`, modelled as `Except.error`. -/
def processItem (ctx : IngestCtx) (srcName srcCategory : String)
    (st : SourceState) (it : RawItem) : Except String SourceState :=
  let idc := deriveEntryId ctx.uuid5 ctx.rand st.ctr it
  let entryId := idc.1
  let st1 : SourceState := { st with ctr := idc.2 }
  if st1.recentIds.contains entryId then .ok st1
  else
    let pub := pubOf it
    if staleAt ctx.cutoff pub then .ok st1
    else
      match it.link with
      | none => .error "AttributeError: link"
      | some l =>
        let content := resolvedContent ctx l it
        if content = "" then .ok st1
        else
          match it.title with
          | none => .error "AttributeError: title"
          | some t =>
            .ok { recentIds := entryId :: st1.recentIds
                  newRows := st1.newRows ++
                    [{ id := entryId, title := t, link := l, published := pub
                       source := srcName, category := srcCategory
                       content := content, summarizedAt := none }]
                  sourceNew := st1.sourceNew + 1
                  ctr := st1.ctr }

/-- `upsert_entries` (lines 212-222): bulk `INSERT ... ON CONFLICT (id) DO
NOTHING` — a row whose id is already present (in the table or earlier in
the same batch) is silently skipped. -/
def upsertEntries (st : List Entry) (rows : List Entry) : List Entry :=
  rows.foldl (fun acc r => if acc.any fun e => e.id = r.id then acc else acc ++ [r]) st

/-- Run-level state of `fetch_and_store`: the table, the shared
`recent_ids` set, the `uuid4` counter, the per-source
`(name, checked, inserted)` log lines (line 316-319), and `total_new`. -/
structure RunState where
  store : List Entry
  recentIds : List String
  ctr : Nat
  logs : List (String × Nat × Nat)
  totalNew : Nat
deriving Repr, DecidableEq, Inhabited

/-- One iteration of the source loop after the effective entry list is
known (lines 267-319): reset `new_rows`/`source_new`, process every item,
batch-insert, log `(name, len(entries), source_new)` and add to
`total_new`. -/
def processOneSource (ctx : IngestCtx) (rs : RunState)
    (name category : String) (items : List RawItem) : Except String RunState :=
  (items.foldlM (processItem ctx name category)
      { recentIds := rs.recentIds, newRows := [], sourceNew := 0, ctr := rs.ctr }).map
    fun st =>
      { store := upsertEntries rs.store st.newRows
        recentIds := st.recentIds
        ctr := st.ctr
        logs := rs.logs ++ [(name, items.length, st.sourceNew)]
        totalNew := rs.totalNew + st.sourceNew }

/-- Lines 246-266: the effective entry list of one source.  On a
successful fetch the parsed items are used (and remembered in the `feed`
variable).  On a failed fetch the code sets `entries = []` — but line 266
(`entries = feed.entries or []`) then unconditionally overwrites this with
the entries of the PREVIOUS successfully parsed feed; if no feed was
parsed yet, `feed` is unbound and the run dies with a `NameError`. -/
def effectiveEntries (fr : FetchResult) (lastFeed : Option (List RawItem)) :
    Except String (List RawItem × Option (List RawItem)) :=
  match fr, lastFeed with
  | .ok items, _ => .ok (items, some items)
  | .fail, some prev => .ok (prev, some prev)
  | .fail, none => .error "NameError: name feed is not defined"

/-- The source loop of `fetch_and_store` (lines 244-319), threading the
`feed` variable across iterations. -/
def runSources (ctx : IngestCtx) :
    List (Source × FetchResult) → Option (List RawItem) → RunState →
    Except String RunState
  | [], _, rs => .ok rs
  | (src, fr) :: rest, lastFeed, rs => do
    let e ← effectiveEntries fr lastFeed
    let rs' ← processOneSource ctx rs src.name src.category e.1
    runSources ctx rest e.2 rs'

/-- The preloaded `recent_ids` set (lines 235-240): all ids whose stored
`published` is NULL or `>= cutoff`. -/
def preloadRecentIds (cutoff : Time) (store : List Entry) : List String :=
  (store.filter fun e =>
    match e.published with
    | none => true
    | some p => decide (cutoff ≤ p)).map fun e => e.id

/-- `fetch_and_store` (lines 225-321): preload recent ids, iterate the
sources, return the final table, logs and `total_new`. -/
def fetchAndStore (ctx : IngestCtx) (feeds : List (Source × FetchResult))
    (store0 : List Entry) : Except String RunState :=
  runSources ctx feeds none
    { store := store0
      recentIds := preloadRecentIds ctx.cutoff store0
      ctr := 0
      logs := []
      totalNew := 0 }

/-- Two consecutive ingestion runs against the same feed set and clock:
the second run starts from the first run's table. -/
def runTwice (ctx : IngestCtx) (feeds : List (Source × FetchResult))
    (store0 : List Entry) : Except String (RunState × RunState) := do
  let r1 ← fetchAndStore ctx feeds store0
  let r2 ← fetchAndStore ctx feeds r1.store
  .ok (r1, r2)

/-! ## Schema: `init_db` vs the retrieval query

`init_db` (`news_gatherer.py` lines 169-183) creates the `entries` table
with exactly these columns.  The retrieval query of
`get_articles_with_pagination` (`news_mcp_server.py` lines 142-160)
selects `id,title,link,published,source,content`, filters on `category`
and `uploaded_at`, and orders by `uploaded_at` and `published`. -/

/-- The column list of `CREATE TABLE IF NOT EXISTS entries (...)` in
`init_db`. -/
def initDbColumns : List String :=
  ["id", "title", "link", "published", "source", "category", "content",
   "summarized_at"]

/-- Every column referenced by the retrieval query of
`get_articles_with_pagination` (SELECT list, WHERE clause and ORDER BY). -/
def retrievalQueryColumns : List String :=
  ["id", "title", "link", "published", "source", "content", "category",
   "uploaded_at"]

/-- A SQL query can run against a schema only when every column it
references exists in that schema; otherwise the database raises
`UndefinedColumn`. -/
def columnsAvailable (schema query : List String) : Bool :=
  query.all fun c => schema.contains c

/-! ## Retrieval data model (`news_mcp_server.py`)

The retrieval model follows the logical schema of spec §6, which is what
the retrieval SQL requires: the spec's `uploaded_at` column (not null) is
present here even though `init_db` does not create it — that mismatch is
claim C1. -/

/-- A stored row as required by the retrieval query: spec §6 schema,
including the not-null `uploaded_at` recency axis. -/
structure RetrievalRow where
  id : String
  title : String
  link : String
  published : Option Time
  source : String
  category : String
  content : String
  summarizedAt : Option Time
  uploadedAt : Time
deriving Repr, DecidableEq, Inhabited

/-- SQL `x DESC NULLS LAST` comparison on a nullable timestamp: larger
values first, `NULL` after every value. -/
def pubKeyLe : Option Time → Option Time → Bool
  | some p, some q => decide (q ≤ p)
  | some _, none => true
  | none, some _ => false
  | none, none => true

/-- The `ORDER BY uploaded_at DESC NULLS LAST, published DESC NULLS LAST`
ordering of the retrieval query (`uploaded_at` is not null, so its
`NULLS LAST` is vacuous). -/
def rowOrder (a b : RetrievalRow) : Bool :=
  if a.uploadedAt = b.uploadedAt then pubKeyLe a.published b.published
  else decide (b.uploadedAt < a.uploadedAt)

/-- Insert into a list sorted by `le` (model of the database sort). -/
def insertSorted (le : α → α → Bool) (a : α) : List α → List α
  | [] => [a]
  | b :: bs => if le a b then a :: b :: bs else b :: insertSorted le a bs

/-- Sort a list by `le` (insertion sort; the database's sort output). -/
def sortListBy (le : α → α → Bool) (l : List α) : List α :=
  l.foldr (insertSorted le) []

/-- The WHERE clause of the retrieval query: `category=%s AND
uploaded_at >= %s` when a category was supplied, else
`category='news' AND uploaded_at >= %s` (lines 142-160). -/
def matchingRows (store : List RetrievalRow) (cat : Option String)
    (cutoff : Time) : List RetrievalRow :=
  store.filter fun r =>
    (match cat with
     | some c => decide (r.category = c)
     | none => decide (r.category = "news")) && decide (cutoff ≤ r.uploadedAt)

/-- The matching rows in the order the retrieval query returns them. -/
def sortedMatching (store : List RetrievalRow) (cat : Option String)
    (cutoff : Time) : List RetrievalRow :=
  sortListBy rowOrder (matchingRows store cat cutoff)

/-- `batch_size = 100` (line 136): rows fetched per database query. -/
def batchSize : Nat := 100

/-- One `LIMIT batch_size OFFSET off` page of the sorted matching rows. -/
def retrievalPage (m : List RetrievalRow) (off : Nat) : List RetrievalRow :=
  (m.drop off).take batchSize

/-- The retrieval query guarded by the column check: against a schema
lacking a referenced column (for example `init_db`'s, which has no
`uploaded_at`) the database raises instead of returning rows. -/
def runRetrievalQuery (schema : List String) (store : List RetrievalRow)
    (cat : Option String) (cutoff : Time) (off : Nat) :
    Except String (List RetrievalRow) :=
  if columnsAvailable schema retrievalQueryColumns then
    .ok (retrievalPage (sortedMatching store cat cutoff) off)
  else .error "UndefinedColumn: column uploaded_at does not exist"

/-- The accumulation loop of `get_articles_with_pagination`
(lines 138-180): while fewer than `limit` rows are accumulated, fetch the
next page; stop on an empty page or a page shorter than `batch_size`.
Structural recursion on explicit fuel (each recursive step consumes a full
page of `batchSize` rows, so `m.length + 1` fuel always suffices). -/
def fetchPages (m : List RetrievalRow) (limit : Nat) :
    Nat → List RetrievalRow → Nat → List RetrievalRow
  | 0, acc, _ => acc
  | fuel + 1, acc, off =>
    if limit ≤ acc.length then acc
    else if (retrievalPage m off).length = 0 then acc
    else if (retrievalPage m off).length < batchSize then acc ++ retrievalPage m off
    else fetchPages m limit fuel (acc ++ retrievalPage m off) (off + batchSize)

/-- `get_articles_with_pagination(category, cutoff_time, limit)`
(lines 127-183): accumulate pages and return `all_articles[:limit]`. -/
def getArticlesWithPagination (store : List RetrievalRow)
    (cat : Option String) (cutoff : Time) (limit : Nat) : List RetrievalRow :=
  let m := sortedMatching store cat cutoff
  (fetchPages m limit (m.length + 1) [] 0).take limit

/-! ## `summarize_news` (lines 186-272) -/

/-- `MAX_ARTICLES_PER_RESPONSE = 10_000` (line 30). -/
def MAX_ARTICLES_PER_RESPONSE : Nat := 10000

/-- Start of the current UTC calendar day:
`datetime(year, month, day, tzinfo=utc)` at lines 212-214. -/
def todayStart (now : Nat) : Time :=
  ((now / 86400 : Nat) : Int) * 86400

/-- The cutoff computation of `summarize_news` (lines 207-218): for
`hours >= 24`, the start of today minus `hours // 24` days; otherwise the
rolling `now - hours`. -/
def cutoffTime (now : Nat) (hours : Nat) : Time :=
  if 24 ≤ hours then todayStart now - ((hours / 24 : Nat) : Int) * 86400
  else (now : Int) - (hours : Int) * 3600

/-- How a nullable `published::text` value prints inside the rendered
article block (`None` for SQL NULL, as Python's `str`). -/
def publishedText : Option Time → String
  | some p => toString p
  | none => "None"

/-- The per-article block of the concatenated result string
(lines 246-249). -/
def renderArticle (r : RetrievalRow) : String :=
  "ID: " ++ r.id ++ "\nTITLE: " ++ r.title ++ "\nLINK: " ++ r.link ++
  "\nPUBLISHED: " ++ publishedText r.published ++ "\nSOURCE: " ++ r.source ++
  "\nCONTENT:\n" ++ r.content

/-- `delimiter` of line 242. -/
def articleSeparator : String := "\n==========ARTICLE_SEPARATOR==========\n"

/-- An element of the `articles` list returned by `summarize_news`: the
"mega-article" of lines 253-260 (its `id` is the integer 0). -/
structure MegaArticle where
  id : Nat
  title : String
  link : String
  published : String
  source : String
  content : String
deriving Repr, DecidableEq, Inhabited

/-- The `meta` dict of the `summarize_news` response. -/
structure NewsMeta where
  totalCount : Nat
  limit : Nat
  offset : Int
  hasMore : Bool
  nextOffset : Option Int
deriving Repr, DecidableEq, Inhabited

/-- The full `summarize_news` response dict. -/
structure NewsResponse where
  articles : List MegaArticle
  meta : NewsMeta
deriving Repr, DecidableEq, Inhabited

/-- `summarize_news(ctx, category, hours, limit, offset)` (lines 186-272):
compute the cutoff, cap the limit at `MAX_ARTICLES_PER_RESPONSE`, retrieve
the articles, and either return an empty result or a single concatenated
mega-article; `offset` is only echoed into `meta`. -/
def summarizeNews (store : List RetrievalRow) (now : Nat) (category : String)
    (hours : Nat) (limit : Nat) (offset : Int) : NewsResponse :=
  let cutoff := cutoffTime now hours
  let cat : Option String := if category = "" then none else some category
  let lim := min limit MAX_ARTICLES_PER_RESPONSE
  let arts := getArticlesWithPagination store cat cutoff lim
  if arts.isEmpty then
    { articles := []
      meta := { totalCount := 0, limit := lim, offset := offset
                hasMore := false, nextOffset := none } }
  else
    let body := "FOUND " ++ toString arts.length ++ " ARTICLES\n\n" ++
      String.intercalate articleSeparator (arts.map renderArticle)
    { articles := [{ id := 0
                     title := "News Feed (" ++ toString arts.length ++ " articles)"
                     link := "concat://articles"
                     published := toString now
                     source := "News Concatenator"
                     content := body }]
      meta := { totalCount := arts.length, limit := lim, offset := offset
                hasMore := false, nextOffset := none } }

/-! ## Digest composer (`summarize_unsummarized`, lines 84-116) -/

/-- The record projected for the digest
(`SELECT id,title,link,source,content`). -/
structure DigestRecord where
  id : String
  title : String
  link : String
  source : String
  content : String
deriving Repr, DecidableEq, Inhabited

/-- The candidate selection of `summarize_unsummarized` (lines 88-101):
rows with `summarized_at IS NULL`, optionally filtered by category
(Python `if category:` — `None` and `""` mean no filter), ordered by
`published DESC NULLS LAST`, limited. -/
def digestCandidates (store : List Entry) (category : Option String)
    (limit : Nat) : List Entry :=
  (sortListBy (fun a b => pubKeyLe a.published b.published)
    (store.filter fun e =>
      e.summarizedAt.isNone &&
      (if truthy category then decide (e.category = category.getD "") else true))).take
    limit

/-- The projection of selected rows to digest records (lines 106-107). -/
def digestRecords (store : List Entry) (category : Option String)
    (limit : Nat) : List DigestRecord :=
  (digestCandidates store category limit).map fun e =>
    { id := e.id, title := e.title, link := e.link, source := e.source
      content := e.content }

/-- The labeled article blocks of `_summarize_articles` (lines 55-61),
numbered from 1. -/
def articleBlocks : Nat → List DigestRecord → List String
  | _, [] => []
  | idx, r :: rs =>
    ("### Article " ++ toString idx ++ "\nTitle: " ++ r.title ++
     "\nSource: " ++ r.source ++ " (" ++ r.link ++ ")\n\n" ++ r.content ++ "\n")
      :: articleBlocks (idx + 1) rs

/-- The numbered source list of `_summarize_articles` (line 62). -/
def sourceLines : Nat → List DigestRecord → List String
  | _, [] => []
  | idx, r :: rs =>
    ("[" ++ toString idx ++ "] " ++ r.title ++ " – " ++ r.link)
      :: sourceLines (idx + 1) rs

/-- `_summarize_articles` (lines 53-82): render the blocks into a prompt,
invoke the external model (the `oracle` parameter; a raised exception is
`Except.error`), and append the numbered source list. -/
def summarizeArticles (oracle : String → Except String String)
    (records : List DigestRecord) : Except String String :=
  let prompt := "Write a cohesive 500-word briefing combining the articles below.\n\n=== ARTICLES ===\n" ++
    String.intercalate "\n" (articleBlocks 1 records) ++ "\n=== END ===\n"
  (oracle prompt).map fun summary =>
    summary ++ "\n\nSources\n" ++ String.intercalate "\n" (sourceLines 1 records)

/-- `summarize_unsummarized(category, limit)` (lines 84-116): select the
candidates; if none, return the fixed message; otherwise call the external
summarizer and, only if it succeeded, set `summarized_at = now` on exactly
the selected ids in one update.  Returns the call outcome together with
the table state afterwards (on failure the exception propagates before the
UPDATE, so the table is unchanged). -/
def summarizeUnsummarized (oracle : String → Except String String)
    (now : Time) (store : List Entry) (category : Option String)
    (limit : Nat) : Except String String × List Entry :=
  let rows := digestCandidates store category limit
  if rows.isEmpty then (.ok "No new articles to summarize.", store)
  else
    let records := digestRecords store category limit
    match summarizeArticles oracle records with
    | .error e => (.error e, store)
    | .ok summary =>
      let ids := records.map fun r => r.id
      (.ok summary,
       store.map fun e =>
         if ids.contains e.id then { e with summarizedAt := some now } else e)

/-! ## The state appended for a persisted candidate

Used to state the per-item claims: the state `processItem` produces when a
candidate survives every filter (the id is consed onto `recent_ids`, the
row appended to `new_rows`, `source_new` incremented). -/

/-- The successor state of `processItem` when the item with id `i`,
link `l`, title `t` and resolved content `content` is persisted. -/
def appendedState (srcName srcCategory : String) (st : SourceState)
    (it : RawItem) (i l t content : String) : SourceState :=
  { recentIds := i :: st.recentIds
    newRows := st.newRows ++
      [{ id := i, title := t, link := l, published := pubOf it
         source := srcName, category := srcCategory
         content := content, summarizedAt := none }]
    sourceNew := st.sourceNew + 1
    ctr := st.ctr }

/-! ## Concrete inputs used by the counterexample and witness theorems -/

/-- A run environment whose article extraction always fails (forcing the
summary/description fallback), with lookback cutoff 0. -/
def demoCtx : IngestCtx :=
  { extract := fun _ => none
    uuid5 := fun s => "uuid5:" ++ s
    rand := fun n => "uuid4:" ++ toString n
    cutoff := 0 }

/-- First demo feed source. -/
def sourceA : Source := { name := "A", category := "tech" }

/-- Second demo feed source. -/
def sourceB : Source := { name := "B", category := "news" }

/-- A well-formed fresh item of source A. -/
def itemA : RawItem :=
  { idField := some "a1", guid := none, link := some "la"
    title := some "Article A", summary := some "summary A"
    description := none, publishedParsed := some 100, updatedParsed := none }

/-- First of two raw items sharing the external id `x`. -/
def itemX1 : RawItem :=
  { idField := some "x", guid := none, link := some "l1"
    title := some "T1", summary := some "s1"
    description := none, publishedParsed := none, updatedParsed := none }

/-- Second of two raw items sharing the external id `x`. -/
def itemX2 : RawItem :=
  { idField := some "x", guid := none, link := some "l2"
    title := some "T2", summary := some "s2"
    description := none, publishedParsed := none, updatedParsed := none }

/-- A raw item with neither an external id nor a link, but with a title
and a non-empty summary. -/
def itemNoLink : RawItem :=
  { idField := none, guid := none, link := none
    title := some "T", summary := some "s"
    description := none, publishedParsed := none, updatedParsed := none }

/-- A run environment with cutoff 100 for the double-run scenario. -/
def demo5Ctx : IngestCtx :=
  { extract := fun _ => none
    uuid5 := fun s => "uuid5:" ++ s
    rand := fun n => "uuid4:" ++ toString n
    cutoff := 100 }

/-- A pre-existing stored entry whose id `x` carries a stale published
timestamp (0, before the cutoff 100). -/
def staleEntry : Entry :=
  { id := "x", title := "Old", link := "lx", published := some 0
    source := "A", category := "tech", content := "old", summarizedAt := none }

/-- The store the double-run scenario starts from. -/
def demo5Store : List Entry := [staleEntry]

/-- An unchanged feed item sharing id `x` with `staleEntry` but carrying a
fresh published timestamp (200, after the cutoff 100). -/
def itemFresh : RawItem :=
  { idField := some "x", guid := none, link := some "lx"
    title := some "Fresh", summary := some "fresh body"
    description := none, publishedParsed := some 200, updatedParsed := none }

/-- The unchanged feed set of the double-run scenario. -/
def demo5Feeds : List (Source × FetchResult) := [(sourceA, .ok [itemFresh])]

/-- Two stored rows in category `news`, both uploaded within the last day
relative to clock 864000 (start of epoch day 10). -/
def demo2Store : List RetrievalRow :=
  [{ id := "n1", title := "N1", link := "ln1", published := some 100
     source := "S1", category := "news", content := "c1"
     summarizedAt := none, uploadedAt := 863995 },
   { id := "n2", title := "N2", link := "ln2", published := some 50
     source := "S2", category := "news", content := "c2"
     summarizedAt := none, uploadedAt := 863990 }]

/-- A per-source state with nothing accumulated (loop entry state of a
first source against an empty store). -/
def emptyState : SourceState :=
  { recentIds := [], newRows := [], sourceNew := 0, ctr := 0 }

/-- Witness item for the fallback-chain claim: empty extraction, non-empty
summary and description, no dates. -/
def itemC6 : RawItem :=
  { idField := some "i6", guid := none, link := some "l6"
    title := some "T6", summary := some "S6"
    description := some "D6", publishedParsed := none, updatedParsed := none }

/-- Witness item for the windowing claim: published at 50. -/
def itemC7 : RawItem :=
  { idField := some "i7", guid := none, link := some "l7"
    title := some "T7", summary := some "S7"
    description := none, publishedParsed := some 50, updatedParsed := none }

/-- A stored entry not yet summarized, used by the digest retry witness. -/
def entryC9 : Entry :=
  { id := "e9", title := "T9", link := "l9", published := some 10
    source := "A", category := "tech", content := "body", summarizedAt := none }

/-- Store of the digest retry witness. -/
def demo9Store : List Entry := [entryC9]

/-- An external summarizer that always fails. -/
def failingOracle : String → Except String String :=
  fun _ => .error "openai boom"

/-! ## Helper lemmas -/

theorem truthy_getD_ne (o : Option String) (h : truthy o = true) :
    o.getD "" ≠ "" := by
  cases o with
  | none => simp [truthy] at h
  | some s =>
    simp [truthy] at h
    simpa using h

/-- When the feed summary is truthy, the resolved content of the fallback
chain is never the empty string (so the candidate is persisted). -/
theorem resolvedContent_ne_empty (ctx : IngestCtx) (l : String) (it : RawItem)
    (h : truthy it.summary = true) : resolvedContent ctx l it ≠ "" := by
  unfold resolvedContent
  simp only [firstTruthy]
  cases he : truthy (ctx.extract l) with
  | true =>
    simp only [he, if_true]
    exact truthy_getD_ne _ he
  | false =>
    simp only [he, h, Bool.false_eq_true, if_false, if_true]
    exact truthy_getD_ne _ h

/-! ## Claim C1

The retrieval operation against a store created by `init_db` cannot return
the matching rows at all: the query references the column `uploaded_at`,
which `init_db`'s `CREATE TABLE` never defines, so the database raises
`UndefinedColumn` on every call. -/

/-- C1 (code bug): the retrieval query references `uploaded_at` while the
`init_db` schema does not contain it, so running the retrieval query
against an `init_db`-created table errors instead of returning the
entries with `uploadedAt ≥ cutoffTime` in the requested category. -/
theorem claim_C1 :
    ("uploaded_at" ∈ retrievalQueryColumns ∧ "uploaded_at" ∉ initDbColumns) ∧
    ∀ (store : List RetrievalRow) (cat : Option String) (cutoff : Time) (off : Nat),
      runRetrievalQuery initDbColumns store cat cutoff off
        = .error "UndefinedColumn: column uploaded_at does not exist" := by
  refine ⟨⟨by decide, by decide⟩, fun store cat cutoff off => ?_⟩
  have h : columnsAvailable initDbColumns retrievalQueryColumns = false := by decide
  simp [runRetrievalQuery, h]

/-! ## Claim C3

A failed feed fetch does NOT yield an empty item sequence: line 266
(`entries = feed.entries or []`) overwrites the `entries = []` assignment
of the error branches.  If the first source fails, `feed` is unbound and
the whole run aborts with a `NameError`; if a later source fails, the
previous source's parsed entries are reprocessed under the failing
source's name. -/

/-- C3 (code bug): a run whose first source fails aborts with a
`NameError` instead of continuing, and a failing second source reports
`checked = 1` — it reprocessed the first source's one-item feed instead of
an empty sequence. -/
theorem claim_C3 :
    fetchAndStore demoCtx [(sourceB, .fail)] []
      = .error "NameError: name feed is not defined" ∧
    (fetchAndStore demoCtx [(sourceA, .ok [itemA]), (sourceB, .fail)] []).map
        (fun rs => rs.logs)
      = .ok [("A", 1, 1), ("B", 1, 0)] := by
  constructor
  · rfl
  · rfl

/-! ## Claim C4

Two raw items with the same external id do collapse to one persisted
Entry within a run, but an item with neither external id nor link does
NOT produce an Entry: `_extract_content(entry.link)` at line 292 accesses
the missing `link` attribute and the run dies with an `AttributeError`. -/

/-- C4 (code bug): same-id collapse works (two items with id `x` produce
one stored row), but an item with no id, no guid and no link crashes the
run with `AttributeError` instead of producing exactly one Entry from its
summary. -/
theorem claim_C4 :
    (fetchAndStore demoCtx [(sourceA, .ok [itemX1, itemX2])] []).map
        (fun rs => (rs.store.length, rs.totalNew))
      = .ok (1, 1) ∧
    fetchAndStore demoCtx [(sourceA, .ok [itemNoLink])] []
      = .error "AttributeError: link" := by
  constructor
  · rfl
  · rfl

/-! ## Claim C5

The reported insert count of a repeated run is not 0: `source_new` counts
rows offered to the batch insert, while `ON CONFLICT (id) DO NOTHING`
silently drops conflicting rows.  With a pre-existing row whose id `x` has
a stale `published` (so it is not preloaded into `recent_ids`) and an
unchanged feed item with id `x` and a fresh `published`, both runs leave
the store unchanged yet each reports `inserted 1`. -/

/-- C5 (code bug): running ingestion twice against the unchanged feed
`demo5Feeds` starting from `demo5Store` inserts nothing (the store is
unchanged after both runs), yet the second run reports a total insert
count of 1, not 0. -/
theorem claim_C5 :
    (runTwice demo5Ctx demo5Feeds demo5Store).map
        (fun p => (p.1.totalNew, p.2.totalNew, p.2.store))
      = .ok (1, 1, demo5Store) := by
  rfl

/-! ## Claim C8: calendar/rolling cutoff -/

/-- C8 (confirmed): with `hours = 24` the cutoff is the start of the
current UTC day minus one day, so two queries on the same calendar day
(`n1`, `n2`) share one cutoff instant, while queries on different calendar
days (`n3`, `n4`) have different cutoffs even when the wall-clock gap is
under 24 hours. -/
theorem claim_C8 (n1 n2 n3 n4 : Nat)
    (hsame : n1 / 86400 = n2 / 86400)
    (hdiff : n3 / 86400 ≠ n4 / 86400)
    (hgap : max n3 n4 - min n3 n4 < 86400) :
    cutoffTime n1 24 = cutoffTime n2 24 ∧ cutoffTime n3 24 ≠ cutoffTime n4 24 := by
  unfold cutoffTime todayStart
  rw [if_pos (le_refl 24), if_pos (le_refl 24), if_pos (le_refl 24),
      if_pos (le_refl 24)]
  constructor
  · rw [hsame]
  · intro h
    have h2 : ((n3 / 86400 : Nat) : Int) * 86400 - ((24 / 24 : Nat) : Int) * 86400
        = ((n4 / 86400 : Nat) : Int) * 86400 - ((24 / 24 : Nat) : Int) * 86400 := h
    apply hdiff
    omega

/-- Witness for C8: 864100 and 914000 are both on epoch day 10 and share
the cutoff; 950399 and 950400 are on days 10 and 11, one second apart, and
have different cutoffs. -/
theorem claim_C8_witness :
    ((864100 : Nat) / 86400 = 914000 / 86400) ∧
    ((950399 : Nat) / 86400 ≠ 950400 / 86400) ∧
    (max (950399 : Nat) 950400 - min 950399 950400 < 86400) ∧
    cutoffTime 864100 24 = cutoffTime 914000 24 ∧
    cutoffTime 950399 24 ≠ cutoffTime 950400 24 := by
  have h1 : (864100 : Nat) / 86400 = 914000 / 86400 := by decide
  have h2 : (950399 : Nat) / 86400 ≠ 950400 / 86400 := by decide
  have h3 : max (950399 : Nat) 950400 - min 950399 950400 < 86400 := by decide
  exact ⟨h1, h2, h3, (claim_C8 864100 914000 950399 950400 h1 h2 h3).1,
         (claim_C8 864100 914000 950399 950400 h1 h2 h3).2⟩

/-! ## Claim C9: digest retry safety -/

/-- C9 (confirmed): when the external summarization call fails, the
`summarized_at` update is never reached, the table is unchanged, and a
subsequent invocation selects the same candidate rows. -/
theorem claim_C9 (oracle : String → Except String String) (now : Time)
    (store : List Entry) (category : Option String) (limit : Nat) (e : String)
    (h : summarizeArticles oracle (digestRecords store category limit) = .error e) :
    (summarizeUnsummarized oracle now store category limit).2 = store ∧
    digestCandidates (summarizeUnsummarized oracle now store category limit).2
        category limit
      = digestCandidates store category limit := by
  have hbase : (summarizeUnsummarized oracle now store category limit).2 = store := by
    unfold summarizeUnsummarized
    by_cases hr : (digestCandidates store category limit).isEmpty
    · simp [hr]
    · simp [hr, h]
  exact ⟨hbase, by rw [hbase]⟩

/-- Witness for C9: a failing summarizer against a one-row store of
unsummarized entries leaves the store unchanged. -/
theorem claim_C9_witness :
    summarizeArticles failingOracle (digestRecords demo9Store none 10)
      = .error "openai boom" ∧
    ((summarizeUnsummarized failingOracle 999 demo9Store none 10).2 = demo9Store ∧
     digestCandidates (summarizeUnsummarized failingOracle 999 demo9Store none 10).2
         none 10
       = digestCandidates demo9Store none 10) := by
  have h : summarizeArticles failingOracle (digestRecords demo9Store none 10)
      = .error "openai boom" := rfl
  exact ⟨h, claim_C9 failingOracle 999 demo9Store none 10 "openai boom" h⟩

/-! ## Claim C10: the offset argument is inert -/

/-- C10 (confirmed): two `summarize_news` calls against the same store and
clock that differ only in `offset` return identical article lists and
identical metadata apart from the echoed `offset` field. -/
theorem claim_C10 (store : List RetrievalRow) (now : Nat) (category : String)
    (hours limit : Nat) (off1 off2 : Int) :
    (summarizeNews store now category hours limit off1).articles
      = (summarizeNews store now category hours limit off2).articles ∧
    (summarizeNews store now category hours limit off1).meta.totalCount
      = (summarizeNews store now category hours limit off2).meta.totalCount ∧
    (summarizeNews store now category hours limit off1).meta.hasMore
      = (summarizeNews store now category hours limit off2).meta.hasMore ∧
    (summarizeNews store now category hours limit off1).meta.limit
      = (summarizeNews store now category hours limit off2).meta.limit ∧
    (summarizeNews store now category hours limit off1).meta.nextOffset
      = (summarizeNews store now category hours limit off2).meta.nextOffset ∧
    (summarizeNews store now category hours limit off1).meta.offset = off1 := by
  unfold summarizeNews
  by_cases he : (getArticlesWithPagination store
      (if category = "" then none else some category)
      (cutoffTime now hours) (min limit MAX_ARTICLES_PER_RESPONSE)).isEmpty
  · simp [he]
  · simp [he]

/-! ## Claim C2: pagination completeness -/

theorem length_insertSorted (le : α → α → Bool) (a : α) (l : List α) :
    (insertSorted le a l).length = l.length + 1 := by
  induction l with
  | nil => rfl
  | cons b bs ih =>
    unfold insertSorted
    by_cases h : le a b
    · simp [h]
    · simp [h, ih]

theorem length_sortListBy (le : α → α → Bool) (l : List α) :
    (sortListBy le l).length = l.length := by
  unfold sortListBy
  induction l with
  | nil => rfl
  | cons a as ih => simp [List.foldr_cons, length_insertSorted, ih]

theorem retrievalPage_length (m : List RetrievalRow) (off : Nat) :
    (retrievalPage m off).length = min 100 (m.length - off) := by
  unfold retrievalPage batchSize
  simp [List.length_take, List.length_drop]

theorem fetchPages_length_le (m : List RetrievalRow) (limit : Nat) :
    ∀ (fuel : Nat) (acc : List RetrievalRow) (off : Nat),
      (fetchPages m limit fuel acc off).length ≤ acc.length + (m.length - off) := by
  intro fuel
  induction fuel with
  | zero =>
    intro acc off
    simp [fetchPages]
  | succ f ih =>
    intro acc off
    have hp := retrievalPage_length m off
    unfold fetchPages batchSize
    by_cases h1 : limit ≤ acc.length
    · rw [if_pos h1]; omega
    · rw [if_neg h1]
      by_cases h2 : (retrievalPage m off).length = 0
      · rw [if_pos h2]; omega
      · rw [if_neg h2]
        by_cases h3 : (retrievalPage m off).length < 100
        · rw [if_pos h3, List.length_append]
          omega
        · rw [if_neg h3]
          have hrec := ih (acc ++ retrievalPage m off) (off + 100)
          rw [List.length_append] at hrec
          omega

theorem fetchPages_length_ge (m : List RetrievalRow) (limit : Nat) :
    ∀ (fuel : Nat) (acc : List RetrievalRow) (off : Nat),
      m.length ≤ off + 100 * fuel →
      min limit (acc.length + (m.length - off))
        ≤ (fetchPages m limit fuel acc off).length := by
  intro fuel
  induction fuel with
  | zero =>
    intro acc off hfuel
    simp only [fetchPages]
    omega
  | succ f ih =>
    intro acc off hfuel
    have hp := retrievalPage_length m off
    unfold fetchPages batchSize
    by_cases h1 : limit ≤ acc.length
    · rw [if_pos h1]; omega
    · rw [if_neg h1]
      by_cases h2 : (retrievalPage m off).length = 0
      · rw [if_pos h2]; omega
      · rw [if_neg h2]
        by_cases h3 : (retrievalPage m off).length < 100
        · rw [if_pos h3, List.length_append]
          omega
        · rw [if_neg h3]
          have hrec := ih (acc ++ retrievalPage m off) (off + 100) (by omega)
          rw [List.length_append] at hrec
          omega

/-- C2 (corrected): `get_articles_with_pagination` over a store with K
matching rows returns `min K limit` rows — exactly K when `limit ≥ K`,
exactly `limit` when `limit < K` (the accumulated result is truncated to
`limit`).  `summarize_news` reports that row count in `total_count` and
always `has_more = false`, but its `articles` list holds at most one
element — the concatenated mega-article — never the K rows themselves. -/
theorem claim_C2 (store : List RetrievalRow) (cat : Option String) (cutoff : Time)
    (limit : Nat) (now : Nat) (category : String) (hours : Nat) (offset : Int) :
    (getArticlesWithPagination store cat cutoff limit).length
      = min (matchingRows store cat cutoff).length limit ∧
    (summarizeNews store now category hours limit offset).meta.hasMore = false ∧
    (summarizeNews store now category hours limit offset).articles.length ≤ 1 ∧
    (summarizeNews store now category hours limit offset).meta.totalCount
      = (getArticlesWithPagination store
          (if category = "" then none else some category)
          (cutoffTime now hours) (min limit MAX_ARTICLES_PER_RESPONSE)).length := by
  have hcount : ∀ (c : Option String) (co : Time) (li : Nat),
      (getArticlesWithPagination store c co li).length
        = min (matchingRows store c co).length li := by
    intro c co li
    unfold getArticlesWithPagination
    have hsort : (sortedMatching store c co).length
        = (matchingRows store c co).length := by
      unfold sortedMatching
      exact length_sortListBy _ _
    rw [← hsort]
    set m := sortedMatching store c co with hm
    have hle := fetchPages_length_le m li (m.length + 1) [] 0
    have hge := fetchPages_length_ge m li (m.length + 1) [] 0 (by omega)
    rw [List.length_take]
    simp only [List.length_nil] at hle hge
    omega
  refine ⟨hcount cat cutoff limit, ?_, ?_, ?_⟩
  · unfold summarizeNews
    by_cases he : (getArticlesWithPagination store
        (if category = "" then none else some category)
        (cutoffTime now hours) (min limit MAX_ARTICLES_PER_RESPONSE)).isEmpty
    · simp [he]
    · simp [he]
  · unfold summarizeNews
    by_cases he : (getArticlesWithPagination store
        (if category = "" then none else some category)
        (cutoffTime now hours) (min limit MAX_ARTICLES_PER_RESPONSE)).isEmpty
    · simp [he]
    · simp [he]
  · unfold summarizeNews
    by_cases he : (getArticlesWithPagination store
        (if category = "" then none else some category)
        (cutoffTime now hours) (min limit MAX_ARTICLES_PER_RESPONSE)).isEmpty
    · rw [List.isEmpty_iff] at he
      simp [he]
    · simp [he]

/-- Counterexample for C2 as stated: the store `demo2Store` holds K = 2
rows matching the default category and the day-aligned cutoff, and
`limit = 10 ≥ K`, yet the `summarize_news` response's articles list has
length 1 (the mega-article), not 2; only `total_count` reports 2. -/
theorem claim_C2_counterexample :
    (matchingRows demo2Store none (cutoffTime 864000 24)).length = 2 ∧
    (summarizeNews demo2Store 864000 "" 24 10 0).meta.totalCount = 2 ∧
    (summarizeNews demo2Store 864000 "" 24 10 0).meta.hasMore = false ∧
    (summarizeNews demo2Store 864000 "" 24 10 0).articles.length = 1 := by
  refine ⟨rfl, rfl, rfl, rfl⟩

/-! ## Claims C6 and C7: content fallback and windowing -/

theorem deriveEntryId_of_idField (u : String → String) (r : Nat → String)
    (c : Nat) (it : RawItem) (i : String)
    (hid : it.idField = some i) (hi : i ≠ "") :
    deriveEntryId u r c it = (i, c) := by
  unfold deriveEntryId
  rw [hid]
  simp [truthy, hi]

/-- C6 (confirmed): for a deduplicated, non-stale candidate whose article
extraction is empty or failed, the persisted content is the feed summary
when the summary is non-empty; else the description when that is
non-empty; and when extraction, summary and description are all empty the
item is dropped — no row is appended. -/
theorem claim_C6 (ctx : IngestCtx) (srcName srcCategory : String)
    (st : SourceState) (it : RawItem) (i l t : String)
    (hid : it.idField = some i) (hi : i ≠ "")
    (hdup : st.recentIds.contains i = false)
    (hlink : it.link = some l) (htitle : it.title = some t)
    (hfresh : staleAt ctx.cutoff (pubOf it) = false)
    (hext : truthy (ctx.extract l) = false) :
    processItem ctx srcName srcCategory st it = .ok (
      if truthy it.summary then
        appendedState srcName srcCategory st it i l t (it.summary.getD "")
      else if truthy it.description then
        appendedState srcName srcCategory st it i l t (it.description.getD "")
      else st) := by
  have hd := deriveEntryId_of_idField ctx.uuid5 ctx.rand st.ctr it i hid hi
  unfold processItem
  rw [hd]
  simp only [hdup, Bool.false_eq_true, if_false, hfresh, hlink]
  unfold resolvedContent
  simp only [firstTruthy, hext, Bool.false_eq_true, if_false]
  cases hsum : truthy it.summary with
  | true =>
    simp only [if_true]
    rw [if_neg (truthy_getD_ne _ hsum), htitle]
    simp [appendedState]
  | false =>
    simp only [Bool.false_eq_true, if_false]
    cases hdesc : truthy it.description with
    | true =>
      simp only [if_true]
      rw [if_neg (truthy_getD_ne _ hdesc), htitle]
      simp [appendedState]
    | false =>
      simp only [Bool.false_eq_true, if_false]
      simp

/-- Witness for C6: with failing extraction, a non-empty summary and no
dates, the item `itemC6` is persisted with the summary as content. -/
theorem claim_C6_witness :
    (itemC6.idField = some "i6" ∧ "i6" ≠ "" ∧
     (emptyState.recentIds.contains "i6" = false) ∧
     itemC6.link = some "l6" ∧ itemC6.title = some "T6" ∧
     staleAt demoCtx.cutoff (pubOf itemC6) = false ∧
     truthy (demoCtx.extract "l6") = false) ∧
    processItem demoCtx "A" "tech" emptyState itemC6 = .ok (
      if truthy itemC6.summary then
        appendedState "A" "tech" emptyState itemC6 "i6" "l6" "T6"
          (itemC6.summary.getD "")
      else if truthy itemC6.description then
        appendedState "A" "tech" emptyState itemC6 "i6" "l6" "T6"
          (itemC6.description.getD "")
      else emptyState) := by
  refine ⟨⟨rfl, by decide, rfl, rfl, rfl, rfl, rfl⟩, ?_⟩
  exact claim_C6 demoCtx "A" "tech" emptyState itemC6 "i6" "l6" "T6"
    rfl (by decide) rfl rfl rfl rfl rfl

/-- C7 (confirmed): for a deduplicated candidate with a non-empty summary,
an item whose parsed date is strictly before the cutoff is dropped (state
unchanged), an item dated at or after the cutoff is kept and persisted,
and an item with no parsed published or updated date is always kept. -/
theorem claim_C7 (ctx : IngestCtx) (srcName srcCategory : String)
    (st : SourceState) (it : RawItem) (i l t s : String)
    (hid : it.idField = some i) (hi : i ≠ "")
    (hdup : st.recentIds.contains i = false)
    (hlink : it.link = some l) (htitle : it.title = some t)
    (hsum : it.summary = some s) (hs : s ≠ "") :
    processItem ctx srcName srcCategory st it = .ok (
      match pubOf it with
      | some p =>
        if p < ctx.cutoff then st
        else appendedState srcName srcCategory st it i l t (resolvedContent ctx l it)
      | none =>
        appendedState srcName srcCategory st it i l t (resolvedContent ctx l it)) := by
  have hd := deriveEntryId_of_idField ctx.uuid5 ctx.rand st.ctr it i hid hi
  have htr : truthy it.summary = true := by simp [truthy, hsum, hs]
  have hcontent := resolvedContent_ne_empty ctx l it htr
  unfold processItem
  rw [hd]
  simp only [hdup, Bool.false_eq_true, if_false]
  cases hp : pubOf it with
  | some p =>
    simp only [staleAt, hp]
    by_cases hlt : p < ctx.cutoff
    · simp [hlt]
    · have hdec : decide (p < ctx.cutoff) = false := decide_eq_false hlt
      simp only [hdec, Bool.false_eq_true, if_false, hlink]
      rw [if_neg hcontent, htitle]
      simp [appendedState, hp, hlt]
  | none =>
    simp only [staleAt, hp, Bool.false_eq_true, if_false, hlink]
    rw [if_neg hcontent, htitle]
    simp [appendedState, hp]

/-- Witness for C7: `itemC7` (published at 50, after the cutoff 0 of
`demoCtx`) passes the window filter and is persisted. -/
theorem claim_C7_witness :
    (itemC7.idField = some "i7" ∧ "i7" ≠ "" ∧
     (emptyState.recentIds.contains "i7" = false) ∧
     itemC7.link = some "l7" ∧ itemC7.title = some "T7" ∧
     itemC7.summary = some "S7" ∧ "S7" ≠ "") ∧
    processItem demoCtx "A" "tech" emptyState itemC7 = .ok (
      match pubOf itemC7 with
      | some p =>
        if p < demoCtx.cutoff then emptyState
        else appendedState "A" "tech" emptyState itemC7 "i7" "l7" "T7"
          (resolvedContent demoCtx "l7" itemC7)
      | none =>
        appendedState "A" "tech" emptyState itemC7 "i7" "l7" "T7"
          (resolvedContent demoCtx "l7" itemC7)) := by
  refine ⟨⟨rfl, by decide, rfl, rfl, rfl, rfl, by decide⟩, ?_⟩
  exact claim_C7 demoCtx "A" "tech" emptyState itemC7 "i7" "l7" "T7" "S7"
    rfl (by decide) rfl rfl rfl rfl (by decide)

end McpNews
